import Mathlib

/-!
Shallow embedding of the tenant-enforcement core of the `ais-go-pkg`
repository layer (directory `repository/`), together with theorems checking
the specification's claims about it.

Modelling conventions:
* ULIDs (128-bit opaque identifiers) are modelled as `Nat`.
* `context.Context` carrying an optional `TenantContext` is modelled as
  `Option TenantContext` (the result of `TenantFromContext`).
* A database table is a `List Row`; a GORM `*gorm.DB` query under
  construction is modelled by the predicate set it will AND into the WHERE
  clause (`Scope`), and `db.AddError` by returning `Except.error`.
* The per-entity GORM schema facts that the tenant code consults
  (`TenantIgnored()`, presence of the `tenant_id` / `dept_id` columns) are
  collected in `EntityMeta`.
-/

namespace AisRepo

/-- Error codes of the `errors` package that the repository layer uses
(`ErrUnauthenticated`, `ErrInvalidArgument`, `ErrCodeNotFound`,
`ErrCodeInternal`). -/
inductive RepoError where
  | unauthenticated
  | invalidArgument
  | notFound
  | internal
deriving DecidableEq, Repr

/-- `TenantContext` from `repository/tenant.go`: tenant-scoped claims read
from the request context (`TenantID`, optional `DeptID`, `IsAdmin`, plus the
reserved `PolicyVersion`, `Roles`, `UserID` fields). -/
structure TenantContext where
  tenantID : Nat
  deptID : Option Nat
  isAdmin : Bool
  policyVersion : Int
  roles : List String
  userID : Nat
deriving DecidableEq, Repr

/-- Per-entity schema facts consulted by the tenant code: whether the model
implements `TenantIgnorable` and returns true, and whether the GORM schema
has columns named `tenant_id` / `dept_id` (`r.tenantFields()`). -/
structure EntityMeta where
  tenantIgnored : Bool
  hasTenantCol : Bool
  hasDeptCol : Bool
deriving DecidableEq, Repr

/-- A stored row of a tenant-participating table: primary key `id`, the
`tenant_id` column, the nullable `dept_id` column, a `name` payload column
and further numeric columns as an association list. -/
structure Row where
  id : Nat
  tenant : Nat
  dept : Option Nat
  name : String
  cols : List (String × Nat)
deriving DecidableEq, Repr

/-- The WHERE-clause predicates that `applyTenantScope` adds to a query:
either none (tenant-ignored entity) or a mandatory `tenant_id = ?` filter
with an optional `dept_id = ?` filter. -/
inductive Scope where
  | ignored
  | filtered (tenant : Nat) (dept : Option Nat)
deriving DecidableEq, Repr

/-- Whether a stored row satisfies the predicates of a `Scope` (the SQL
semantics of the WHERE clauses added by `applyTenantScope`). -/
def rowVisible : Scope → Row → Bool
  | Scope.ignored, _ => true
  | Scope.filtered t d, r =>
      r.tenant == t &&
        (match d with
         | none => true
         | some dv => r.dept == some dv)

/-- `applyTenantScope` from `repository/tenant_scope.go` (lines 17-40): skip
tenant-ignored entities; no identity in context adds `ErrUnauthenticated`;
a missing `tenant_id` column adds `ErrInvalidArgument`; always filter by
`tenant_id = tc.TenantID`; additionally filter by `dept_id = *tc.DeptID`
only when the caller is non-admin AND `tc.DeptID != nil` AND the entity has
a `dept_id` column. -/
def applyTenantScope (meta : EntityMeta) (octx : Option TenantContext) :
    Except RepoError Scope :=
  if meta.tenantIgnored then Except.ok Scope.ignored
  else
    match octx with
    | none => Except.error RepoError.unauthenticated
    | some tc =>
        if !meta.hasTenantCol then Except.error RepoError.invalidArgument
        else if !tc.isAdmin && tc.deptID.isSome && meta.hasDeptCol then
          Except.ok (Scope.filtered tc.tenantID tc.deptID)
        else
          Except.ok (Scope.filtered tc.tenantID none)

/-- The divergent `applyTenantScope` variant at `repository/aggregate.go`
lines 335-365: identical up to the department step, but a NON-admin caller
on an entity that has a `dept_id` column MUST provide `DeptID`, otherwise
the builder gets `ErrUnauthenticated` ("non-admin user must provide
dept_id"). -/
def applyTenantScopeChecked (meta : EntityMeta) (octx : Option TenantContext) :
    Except RepoError Scope :=
  if meta.tenantIgnored then Except.ok Scope.ignored
  else
    match octx with
    | none => Except.error RepoError.unauthenticated
    | some tc =>
        if !meta.hasTenantCol then Except.error RepoError.invalidArgument
        else if !tc.isAdmin && meta.hasDeptCol then
          match tc.deptID with
          | none => Except.error RepoError.unauthenticated
          | some d => Except.ok (Scope.filtered tc.tenantID (some d))
        else
          Except.ok (Scope.filtered tc.tenantID none)

/-- `setTenantFields` from `repository/tenant_scope.go` (lines 55-82):
tenant-ignored entities pass through; no identity returns
`ErrUnauthenticated`; a missing `tenant_id` column returns
`ErrInvalidArgument`; the tenant field is then always overwritten with
`tc.TenantID`, and the dept field is overwritten with `tc.DeptID` when both
the context value and the column are present. -/
def setTenantFields (meta : EntityMeta) (octx : Option TenantContext)
    (row : Row) : Except RepoError Row :=
  if meta.tenantIgnored then Except.ok row
  else
    match octx with
    | none => Except.error RepoError.unauthenticated
    | some tc =>
        if !meta.hasTenantCol then Except.error RepoError.invalidArgument
        else
          if tc.deptID.isSome && meta.hasDeptCol then
            Except.ok { row with tenant := tc.tenantID, dept := tc.deptID }
          else
            Except.ok { row with tenant := tc.tenantID }

/-- The rows of a table that a scoped query can see. -/
def visibleRows (sc : Scope) (db : List Row) : List Row :=
  db.filter (rowVisible sc)

/-- Modelled from the spec: the final tenant-aware `Create` (spec 4.1: nil
entity is `ErrInvalidArgument`, then `fillTenantFields`, then persist). The
snapshot's `repository/crud.go` Create predates the wiring of
`setTenantFields`, which the design plan (Task 3) and the in-tree tests
(`TestTenantCreateAutoFill`, `TestNonPointerDeptIDField`) require; the field
filling itself is `setTenantFields` translated from the source. -/
def create (meta : EntityMeta) (octx : Option TenantContext) (db : List Row)
    (model : Option Row) : Except RepoError (List Row × Row) :=
  match model with
  | none => Except.error RepoError.invalidArgument
  | some m =>
      match setTenantFields meta octx m with
      | Except.error e => Except.error e
      | Except.ok m' => Except.ok (db ++ [m'], m')

/-- `CreateBatch` from `repository/crud.go` (lines 66-91): an empty slice is
`ErrInvalidArgument`; nil models are filtered out; if nothing remains the
call returns nil without touching the database; otherwise the valid models
are inserted (`batchSize` only chunks the INSERTs and does not affect the
final state; non-positive values fall back to `DefaultBatchSize`). -/
def createBatch (db : List Row) (models : List (Option Row))
    (batchSize : Int) : Except RepoError (List Row) :=
  if models.length = 0 then Except.error RepoError.invalidArgument
  else
    let valid := models.filterMap id
    if valid.length = 0 then Except.ok db
    else Except.ok (db ++ valid)

/-- Modelled from the spec: the scoped `FindByID` (spec 4.1: `id = ?` AND
scope; zero rows is `ErrNotFound`). The query glue (`buildQuery` invoking
`applyTenantScope`, required by design-plan Task 2 and
`TestTenantFindByIDScope`) is absent from the snapshot's query file; the
scope itself is `applyTenantScope` translated from the source. -/
def findByID (meta : EntityMeta) (octx : Option TenantContext) (db : List Row)
    (id : Nat) : Except RepoError Row :=
  match applyTenantScope meta octx with
  | Except.error e => Except.error e
  | Except.ok sc =>
      match (visibleRows sc db).filter (fun r => r.id == id) with
      | [] => Except.error RepoError.notFound
      | r :: _ => Except.ok r

/-- Modelled from the spec: the scoped `FindByIDs` (empty input returns an
empty result without a database call; otherwise rows intersected with
scope). Scope from the source's `applyTenantScope`. -/
def findByIDs (meta : EntityMeta) (octx : Option TenantContext)
    (db : List Row) (ids : List Nat) : Except RepoError (List Row) :=
  if ids.isEmpty then Except.ok []
  else
    match applyTenantScope meta octx with
    | Except.error e => Except.error e
    | Except.ok sc =>
        Except.ok ((visibleRows sc db).filter (fun r => ids.contains r.id))

/-- Modelled from the spec: the scoped `FindOne` — the caller-supplied WHERE
fragment (here a row predicate `q`) is ANDed with the tenant scope; zero
rows is `ErrNotFound`. Scope from the source's `applyTenantScope`. -/
def findOne (meta : EntityMeta) (octx : Option TenantContext) (db : List Row)
    (q : Row → Bool) : Except RepoError Row :=
  match applyTenantScope meta octx with
  | Except.error e => Except.error e
  | Except.ok sc =>
      match (visibleRows sc db).filter q with
      | [] => Except.error RepoError.notFound
      | r :: _ => Except.ok r

/-- Modelled from the spec: the scoped `FindByQuery` — the caller fragment is
ANDed with the tenant scope and all matching rows are returned. -/
def findByQuery (meta : EntityMeta) (octx : Option TenantContext)
    (db : List Row) (q : Row → Bool) : Except RepoError (List Row) :=
  match applyTenantScope meta octx with
  | Except.error e => Except.error e
  | Except.ok sc => Except.ok ((visibleRows sc db).filter q)

/-- Modelled from the spec: the scoped `Count` — counts only the caller's
visible rows. -/
def countOp (meta : EntityMeta) (octx : Option TenantContext) (db : List Row)
    (q : Row → Bool) : Except RepoError Nat :=
  match applyTenantScope meta octx with
  | Except.error e => Except.error e
  | Except.ok sc => Except.ok (((visibleRows sc db).filter q).length)

/-- `Exists` delegates to `Count` and tests `count > 0`
(`repository/query.go`). -/
def existsOp (meta : EntityMeta) (octx : Option TenantContext) (db : List Row)
    (q : Row → Bool) : Except RepoError Bool :=
  match countOp meta octx db q with
  | Except.error e => Except.error e
  | Except.ok n => Except.ok (decide (0 < n))

/-- Numeric column access for aggregate queries: the value of column `c` on
row `r`, with missing columns read as SQL 0. -/
def colVal (r : Row) (c : String) : Nat :=
  match r.cols.find? (fun p => p.fst == c) with
  | some p => p.snd
  | none => 0

/-- Character class `[a-zA-Z_]` of the aggregate column regex. -/
def isAlphaUnderscore (c : Char) : Bool :=
  ('a' ≤ c && c ≤ 'z') || ('A' ≤ c && c ≤ 'Z') || c == '_'

/-- Character class `[a-zA-Z0-9_]` of the aggregate column regex. -/
def isAlnumUnderscore (c : Char) : Bool :=
  isAlphaUnderscore c || ('0' ≤ c && c ≤ '9')

/-- The anchored regex `^[a-zA-Z_][a-zA-Z0-9_]*$` (`columnRegex` in
`repository/aggregate.go`). -/
def columnRegexMatch (s : String) : Bool :=
  match s.data with
  | [] => false
  | c :: cs => isAlphaUnderscore c && cs.all isAlnumUnderscore

/-- `validateColumn` from `repository/aggregate.go` (lines 23-34): empty
column, a column containing a `.` table qualifier, or a column failing
`columnRegex` are all `ErrInvalidArgument`. -/
def validateColumn (column : String) : Except RepoError Unit :=
  if column = "" then Except.error RepoError.invalidArgument
  else if column.data.any (fun ch => ch == '.') then
    Except.error RepoError.invalidArgument
  else if !columnRegexMatch column then Except.error RepoError.invalidArgument
  else Except.ok ()

/-- `Sum` from `repository/aggregate.go` (lines 37-56): validate the column
name first, then apply the tenant scope and the optional caller fragment,
then `COALESCE(SUM(column), 0)`. -/
def sumOp (meta : EntityMeta) (octx : Option TenantContext) (db : List Row)
    (column : String) (q : Row → Bool) : Except RepoError Nat :=
  match validateColumn column with
  | Except.error e => Except.error e
  | Except.ok _ =>
      match applyTenantScope meta octx with
      | Except.error e => Except.error e
      | Except.ok sc =>
          Except.ok
            ((((visibleRows sc db).filter q).map (fun r => colVal r column)).foldl
              (· + ·) 0)

/-- `Avg` from `repository/aggregate.go` (lines 59-77): same gating as
`Sum`; `COALESCE(AVG(column), 0)`. -/
def avgOp (meta : EntityMeta) (octx : Option TenantContext) (db : List Row)
    (column : String) (q : Row → Bool) : Except RepoError Rat :=
  match validateColumn column with
  | Except.error e => Except.error e
  | Except.ok _ =>
      match applyTenantScope meta octx with
      | Except.error e => Except.error e
      | Except.ok sc =>
          let vs := ((visibleRows sc db).filter q).map (fun r => colVal r column)
          Except.ok
            (if vs.length = 0 then 0
             else ((vs.foldl (· + ·) 0 : Nat) : Rat) / (vs.length : Rat))

/-- Fold computing `MAX(column)` over the matched values (`nil` when no row
matches, as in the source's NULL handling). -/
def maxFold (l : List Nat) : Option Nat :=
  l.foldl
    (fun acc v =>
      match acc with
      | none => some v
      | some m => some (max m v))
    none

/-- Fold computing `MIN(column)` over the matched values. -/
def minFold (l : List Nat) : Option Nat :=
  l.foldl
    (fun acc v =>
      match acc with
      | none => some v
      | some m => some (min m v))
    none

/-- `Max` from `repository/aggregate.go` (lines 82-107): same gating as
`Sum`; returns `nil` when no rows match. -/
def maxOp (meta : EntityMeta) (octx : Option TenantContext) (db : List Row)
    (column : String) (q : Row → Bool) : Except RepoError (Option Nat) :=
  match validateColumn column with
  | Except.error e => Except.error e
  | Except.ok _ =>
      match applyTenantScope meta octx with
      | Except.error e => Except.error e
      | Except.ok sc =>
          Except.ok
            (maxFold (((visibleRows sc db).filter q).map (fun r => colVal r column)))

/-- `Min` from `repository/aggregate.go` (lines 112-137). -/
def minOp (meta : EntityMeta) (octx : Option TenantContext) (db : List Row)
    (column : String) (q : Row → Bool) : Except RepoError (Option Nat) :=
  match validateColumn column with
  | Except.error e => Except.error e
  | Except.ok _ =>
      match applyTenantScope meta octx with
      | Except.error e => Except.error e
      | Except.ok sc =>
          Except.ok
            (minFold (((visibleRows sc db).filter q).map (fun r => colVal r column)))

/-- `PageResult` from `repository/interfaces.go`. -/
structure PageResultM where
  list : List Row
  total : Nat
  page : Int
  pageSize : Int
  pages : Int
deriving DecidableEq, Repr

/-- `FindPageWithOpts` from `repository/page.go` (lines 25-48) composed with
`findPageWithDB` (lines 95-124): `page < 1` becomes 1, `pageSize < 1`
becomes 10, `pageSize > 1000` becomes 1000; then count, offset
`(page-1)*pageSize`, slice of size `pageSize`, and `pages =
ceil(total/pageSize)`. The tenant scope on the snapshot's page path follows
the final scoped `buildQuery` (spec 4.1). -/
def findPage (meta : EntityMeta) (octx : Option TenantContext) (db : List Row)
    (page pageSize : Int) (q : Row → Bool) : Except RepoError PageResultM :=
  match applyTenantScope meta octx with
  | Except.error e => Except.error e
  | Except.ok sc =>
      let page1 := if page < 1 then 1 else page
      let ps1 := if pageSize < 1 then 10 else pageSize
      let ps2 := if ps1 > 1000 then 1000 else ps1
      let rows := (visibleRows sc db).filter q
      let total := rows.length
      let offset := ((page1 - 1) * ps2).toNat
      Except.ok
        { list := (rows.drop offset).take ps2.toNat
          total := total
          page := page1
          pageSize := ps2
          pages := ((total : Int) + ps2 - 1) / ps2 }

/-- `Update` from `repository/crud.go` (lines 99-114): nil model is
`ErrInvalidArgument`; otherwise GORM `Save(model)`, which emits an UPDATE of
ALL fields (zero values included) for the row whose primary key matches;
`RowsAffected == 0` maps to `ErrCodeNotFound`. -/
def update (db : List Row) (model : Option Row) : Except RepoError (List Row) :=
  match model with
  | none => Except.error RepoError.invalidArgument
  | some m =>
      if (db.filter (fun r => r.id == m.id)).length = 0 then
        Except.error RepoError.notFound
      else
        Except.ok (db.map (fun r => if r.id == m.id then m else r))

/-- One entry of the memoized GORM schema (`stmt.Schema`): declared field
name, storage column name, primary-key flag, updatable flag. -/
structure SchemaField where
  name : String
  dbName : String
  primaryKey : Bool
  updatable : Bool
deriving DecidableEq, Repr

/-- `filterUpdates` from `repository/crud.go` (lines 146-172): each key of
the update map is matched first against `FieldsByDBName`, then against
`FieldsByName`; a matched field is kept (under its DB name) iff it is not
the primary key and is updatable; unknown keys are dropped. -/
def filterUpdates (fields : List SchemaField) (updates : List (String × Nat)) :
    List (String × Nat) :=
  updates.filterMap
    (fun kv =>
      match fields.find? (fun f => f.dbName == kv.fst) with
      | some f => if !f.primaryKey && f.updatable then some kv else none
      | none =>
          match fields.find? (fun f => f.name == kv.fst) with
          | some f =>
              if !f.primaryKey && f.updatable then some (f.dbName, kv.snd)
              else none
          | none => none)

/-- Overwrite (or append) one column in an association list. -/
def setCol : List (String × Nat) → String → Nat → List (String × Nat)
  | [], k, v => [(k, v)]
  | (k', v') :: rest, k, v =>
      if k' == k then (k, v) :: rest else (k', v') :: setCol rest k v

/-- SQL semantics of applying one filtered `column = value` assignment to a
stored row: the distinguished `tenant_id` / `dept_id` columns update the
corresponding row fields, any other column updates the payload map. -/
def applyUpdate (r : Row) (kv : String × Nat) : Row :=
  if kv.fst = "tenant_id" then { r with tenant := kv.snd }
  else if kv.fst = "dept_id" then { r with dept := some kv.snd }
  else { r with cols := setCol r.cols kv.fst kv.snd }

/-- SQL semantics of the full emitted UPDATE SET list. -/
def applyUpdates (r : Row) (kvs : List (String × Nat)) : Row :=
  kvs.foldl applyUpdate r

/-- `UpdateByID` from `repository/crud.go` (lines 117-143): empty update map
is `ErrInvalidArgument`; the map is passed through `filterUpdates`; an empty
filtered map is `ErrInvalidArgument`; the UPDATE runs with predicate
`id = ?` only (the snapshot adds no tenant predicate here);
`RowsAffected == 0` maps to `ErrCodeNotFound`. -/
def updateByID (fields : List SchemaField) (db : List Row) (id : Nat)
    (updates : List (String × Nat)) : Except RepoError (List Row) :=
  if updates.length = 0 then Except.error RepoError.invalidArgument
  else
    let filtered := filterUpdates fields updates
    if filtered.length = 0 then Except.error RepoError.invalidArgument
    else if (db.filter (fun r => r.id == id)).length = 0 then
      Except.error RepoError.notFound
    else
      Except.ok (db.map (fun r => if r.id == id then applyUpdates r filtered else r))

/-- ASCII uppercasing of `strings.ToUpper` (all inputs of interest are
ASCII). -/
def upperAscii (s : String) : String :=
  String.mk (s.data.map Char.toUpper)

/-- `isWordChar` from `repository/validation.go` (lines 308-311): letters,
digits and underscore. -/
def isWordChar (c : Char) : Bool :=
  ('A' ≤ c && c ≤ 'Z') || ('a' ≤ c && c ≤ 'z') || ('0' ≤ c && c ≤ '9') || c == '_'

/-- Whether `pat` is a prefix of `text` (character-wise). -/
def startsWithPat : List Char → List Char → Bool
  | _, [] => true
  | [], _ :: _ => false
  | c :: cs, p :: ps => c == p && startsWithPat cs ps

/-- Index of the first occurrence of `pat` in `text` starting from position
`i`, as in `strings.Index` (which reports only the FIRST occurrence). -/
def indexOfFrom : List Char → List Char → Nat → Option Nat
  | [], pat, i => if pat.isEmpty then some i else none
  | text@(_ :: rest), pat, i =>
      if startsWithPat text pat then some i else indexOfFrom rest pat (i + 1)

/-- `strings.Contains`. -/
def strContains (text pat : List Char) : Bool :=
  (indexOfFrom text pat 0).isSome

/-- `dangerousKeywords` from `repository/validation.go` (lines 30-34). -/
def dangerousKeywords : List String :=
  ["DROP", "DELETE", "UPDATE", "INSERT", "TRUNCATE", "ALTER", "CREATE",
   "GRANT", "REVOKE", "EXEC", "EXECUTE", "UNION", "INTO", "OUTFILE",
   "LOAD_FILE", "DUMPFILE", "--", "/*", "*/", ";", "SLEEP", "BENCHMARK"]

/-- `isKeywordMatch` from `repository/validation.go` (lines 275-305): the
four special tokens use plain substring search; word keywords are located
with `strings.Index` — only the FIRST occurrence — and that single position
is then checked for word boundaries on both sides. -/
def isKeywordMatch (text keyword : String) : Bool :=
  if keyword = "--" || keyword = "/*" || keyword = "*/" || keyword = ";" then
    strContains text.data keyword.data
  else
    match indexOfFrom text.data keyword.data 0 with
    | none => false
    | some idx =>
        let t := text.data
        let endIdx := idx + keyword.data.length
        (idx == 0 || !isWordChar (t.getD (idx - 1) ' ')) &&
          (t.length ≤ endIdx || !isWordChar (t.getD endIdx ' '))

/-- `checkDangerousKeywords` from `repository/validation.go` (lines
255-272): uppercase the value, scan the blacklist, and report the first
keyword for which `isKeywordMatch` fires (`none` means the value passes). -/
def checkDangerousKeywords (value : String) : Option String :=
  dangerousKeywords.find? (fun kw => isKeywordMatch (upperAscii value) kw)

/-! ### Helper lemmas -/

lemma applyTenantScope_some_shape {meta : EntityMeta} {tc : TenantContext}
    {sc : Scope} (hig : meta.tenantIgnored = false)
    (h : applyTenantScope meta (some tc) = Except.ok sc) :
    ∃ d, sc = Scope.filtered tc.tenantID d := by
  unfold applyTenantScope at h
  rw [hig] at h
  simp only [Bool.false_eq_true, if_false] at h
  split at h
  · cases h
  · split at h
    · exact ⟨tc.deptID, ((Except.ok.injEq _ _).mp h).symm⟩
    · exact ⟨none, ((Except.ok.injEq _ _).mp h).symm⟩

lemma rowVisible_filtered_tenant {t : Nat} {d : Option Nat} {r : Row}
    (h : rowVisible (Scope.filtered t d) r = true) : r.tenant = t := by
  simp only [rowVisible, Bool.and_eq_true, beq_iff_eq] at h
  exact h.1

lemma rowVisible_filtered_of_ne {t : Nat} {d : Option Nat} {r : Row}
    (h : r.tenant ≠ t) : rowVisible (Scope.filtered t d) r = false := by
  cases hv : rowVisible (Scope.filtered t d) r
  · rfl
  · exact absurd (rowVisible_filtered_tenant hv) h

lemma rowVisible_of_mem_visibleRows {sc : Scope} {db : List Row} {r : Row}
    (h : r ∈ visibleRows sc db) : rowVisible sc r = true :=
  (List.mem_filter.mp h).2

lemma visibleRows_append_invisible {sc : Scope} {x : Row} (db : List Row)
    (h : rowVisible sc x = false) :
    visibleRows sc (db ++ [x]) = visibleRows sc db := by
  simp [visibleRows, List.filter_append, List.filter_cons, h]

lemma setTenantFields_ok_tenant {meta : EntityMeta} {tc : TenantContext}
    {m r : Row} (hig : meta.tenantIgnored = false)
    (h : setTenantFields meta (some tc) m = Except.ok r) :
    r.tenant = tc.tenantID := by
  unfold setTenantFields at h
  rw [hig] at h
  simp only [Bool.false_eq_true, if_false] at h
  split at h
  · cases h
  · split at h
    · rw [← ((Except.ok.injEq _ _).mp h)]
    · rw [← ((Except.ok.injEq _ _).mp h)]

lemma create_ok {meta : EntityMeta} {tc : TenantContext} {db : List Row}
    {m : Row} {db' : List Row} {r' : Row}
    (hig : meta.tenantIgnored = false)
    (h : create meta (some tc) db (some m) = Except.ok (db', r')) :
    r'.tenant = tc.tenantID ∧ db' = db ++ [r'] := by
  simp only [create] at h
  cases hs : setTenantFields meta (some tc) m with
  | error e => rw [hs] at h; cases h
  | ok m' =>
      rw [hs] at h
      simp only [Except.ok.injEq, Prod.mk.injEq] at h
      obtain ⟨h1, h2⟩ := h
      subst h2
      exact ⟨setTenantFields_ok_tenant hig hs, h1.symm⟩

lemma returned_row_tenant {meta : EntityMeta} {b : TenantContext} {sc : Scope}
    {dbx : List Row} {r0 r' : Row}
    (hig : meta.tenantIgnored = false)
    (hsc : applyTenantScope meta (some b) = Except.ok sc)
    (hne : r'.tenant ≠ b.tenantID)
    (hmem : r0 ∈ visibleRows sc dbx) :
    r0.tenant = b.tenantID ∧ r0 ≠ r' := by
  obtain ⟨d, rfl⟩ := applyTenantScope_some_shape hig hsc
  have ht := rowVisible_filtered_tenant (rowVisible_of_mem_visibleRows hmem)
  exact ⟨ht, fun he => hne (he ▸ ht)⟩

/-! ### Claim theorems -/

/-- Claim C2: Create auto-fills the tenant field — for a non-tenant-ignored
entity, a successful `create` under identity `tc` stores a row whose
`tenant_id` equals `tc.tenantID` regardless of the tenant value on the
in-memory entity, and that stored row is exactly the one appended to the
table. -/
theorem createAutofillsTenant (meta : EntityMeta) (tc : TenantContext)
    (db : List Row) (m : Row) (db' : List Row) (r' : Row)
    (hig : meta.tenantIgnored = false)
    (hcol : meta.hasTenantCol = true)
    (h : create meta (some tc) db (some m) = Except.ok (db', r')) :
    r'.tenant = tc.tenantID ∧ db' = db ++ [r'] :=
  create_ok hig h

/-- Witness for C2: an identity of tenant 7 creates an entity whose
in-memory tenant field holds 99; the stored row carries tenant 7. -/
theorem createAutofillsTenantWitness :
    (⟨false, true, true⟩ : EntityMeta).tenantIgnored = false ∧
    (⟨10, 7, some 3, "a", []⟩ : Row).tenant = 7 :=
  ⟨rfl,
   (createAutofillsTenant ⟨false, true, true⟩ ⟨7, some 3, false, 0, [], 1⟩ []
      ⟨10, 99, none, "a", []⟩ [⟨10, 7, some 3, "a", []⟩] ⟨10, 7, some 3, "a", []⟩
      rfl rfl rfl).1⟩

/-- Claim C3 (code bug): on an entity with a `dept_id` column, a non-admin
identity whose scope has no `dept_id` is NOT rejected by the snapshot's
`applyTenantScope` (`tenant_scope.go` lines 17-40): the scope silently
degrades to tenant-only filtering, so here a read and a count under such an
identity succeed and expose a row of department 9, whereas the divergent
variant at `aggregate.go` lines 335-365 — the behaviour the in-tree
security tests (`TestNonAdminMustProvideDeptID`) demand — returns
`ErrUnauthenticated`. -/
theorem nonAdminMissingDeptNotRejected :
    applyTenantScope ⟨false, true, true⟩ (some ⟨1, none, false, 0, [], 2⟩) =
      Except.ok (Scope.filtered 1 none) ∧
    findByID ⟨false, true, true⟩ (some ⟨1, none, false, 0, [], 2⟩)
        [⟨4, 1, some 9, "d", []⟩] 4 = Except.ok ⟨4, 1, some 9, "d", []⟩ ∧
    countOp ⟨false, true, true⟩ (some ⟨1, none, false, 0, [], 2⟩)
        [⟨4, 1, some 9, "d", []⟩] (fun _ => true) = Except.ok 1 ∧
    applyTenantScopeChecked ⟨false, true, true⟩
        (some ⟨1, none, false, 0, [], 2⟩) =
      Except.error RepoError.unauthenticated :=
  ⟨rfl, rfl, rfl, rfl⟩

/-- Schema of the source's test entity `tenantTestModel` / `deptTestModel`:
`id` is the primary key, while `tenant_id`, `dept_id` and `name` are plain
columns whose gorm tags mark nothing read-only, hence updatable. -/
def deptSchemaFields : List SchemaField :=
  [⟨"ID", "id", true, true⟩, ⟨"TenantID", "tenant_id", false, true⟩,
   ⟨"DeptID", "dept_id", false, true⟩, ⟨"Name", "name", false, true⟩]

/-- Claim C4 (code bug): `filterUpdates` (`crud.go` lines 146-172) keeps
`tenant_id` and `dept_id` — it drops only primary-key, non-updatable and
unknown columns, and the snapshot's `UpdateByID` accepts no whitelist — so
an `UpdateByID` whose map carries `tenant_id` rewrites the stored tenant
(here from tenant 1 to tenant 2) instead of dropping the key. -/
theorem filterUpdatesKeepsTenantKey :
    filterUpdates deptSchemaFields [("tenant_id", 2), ("name", 5)] =
      [("tenant_id", 2), ("name", 5)] ∧
    updateByID deptSchemaFields [⟨10, 1, none, "x", []⟩] 10
        [("tenant_id", 2)] = Except.ok [⟨10, 2, none, "x", []⟩] :=
  ⟨rfl, rfl⟩

/-- Claim C5 (code bug): `Update` (`crud.go` lines 99-114) uses GORM `Save`,
which writes every field including zero-valued ones: saving an entity whose
`name` holds the zero value "" overwrites the stored "before" instead of
preserving it (the in-tree test `TestUpdateIgnoresZeroValues` demands
preservation). -/
theorem updateSaveWritesZeroValues :
    update [⟨1, 5, none, "before", []⟩] (some ⟨1, 5, none, "", []⟩) =
      Except.ok [⟨1, 5, none, "", []⟩] :=
  rfl

/-- Claim C6 (code bug): `checkDangerousKeywords`
(`validation.go` lines 255-311) inspects only the FIRST occurrence of each
word keyword (`strings.Index`), so the input "updated_at UPDATE" passes the
blacklist although it contains the blacklisted token UPDATE as a standalone
word: in the uppercased text the token occurs again at index 11, preceded
by a space and extending to the end of the string. The benign side of the
claim does hold on this input family: "created_at" alone is accepted. -/
theorem firstOccurrenceOnlyKeywordCheck :
    checkDangerousKeywords "updated_at UPDATE" = none ∧
    dangerousKeywords.contains "UPDATE" = true ∧
    (upperAscii "updated_at UPDATE").data.drop 11 = "UPDATE".data ∧
    isWordChar ((upperAscii "updated_at UPDATE").data.getD 10 ' ') = false ∧
    checkDangerousKeywords "created_at" = none := by
  refine ⟨?_, ?_, ?_, ?_, ?_⟩ <;> decide

/-- Claim C10: `CreateBatch` on a non-empty all-nil slice filters every
element away and succeeds without writing anything, while the empty slice
is rejected with `ErrInvalidArgument` — so success of `CreateBatch` does
not imply that a row was inserted. -/
theorem createBatchAllNilNoWrite (db : List Row) (models : List (Option Row))
    (bs : Int) (hne : models ≠ [])
    (hall : ∀ m ∈ models, m = none) :
    createBatch db models bs = Except.ok db ∧
    createBatch db ([] : List (Option Row)) bs =
      Except.error RepoError.invalidArgument := by
  refine ⟨?_, by simp [createBatch]⟩
  have hf : models.filterMap id = ([] : List Row) := by
    rw [List.filterMap_eq_nil_iff]
    intro a ha
    simpa using hall a ha
  have hlen : models.length ≠ 0 := by
    simpa [List.length_eq_zero] using hne
  simp [createBatch, hf, hlen]

/-- Witness for C10: a two-element all-nil batch leaves a one-row table
unchanged and reports success. -/
theorem createBatchAllNilNoWriteWitness :
    ([none, none] : List (Option Row)) ≠ [] ∧
    createBatch [⟨1, 2, none, "k", []⟩] [none, none] 0 =
      Except.ok [⟨1, 2, none, "k", []⟩] :=
  ⟨by decide,
   (createBatchAllNilNoWrite [⟨1, 2, none, "k", []⟩] [none, none] 0
      (by decide) (by decide)).1⟩

lemma columnRegexMatch_no_dot {s : String} (h : columnRegexMatch s = true) :
    s.data.any (fun ch => ch == '.') = false := by
  by_contra hc
  rw [Bool.not_eq_false, List.any_eq_true] at hc
  obtain ⟨x, hx, hbeq⟩ := hc
  have hxe : x = '.' := by simpa using hbeq
  subst hxe
  unfold columnRegexMatch at h
  cases hd : s.data with
  | nil => rw [hd] at hx; exact absurd hx (List.not_mem_nil _)
  | cons c cs =>
      rw [hd] at h hx
      simp only [Bool.and_eq_true, List.all_eq_true] at h
      obtain ⟨h1, h2⟩ := h
      rcases List.mem_cons.mp hx with he | hm
      · rw [← he] at h1
        exact absurd h1 (by decide)
      · exact absurd (h2 _ hm) (by decide)

lemma validateColumn_err {column : String}
    (hm : columnRegexMatch column = false) :
    validateColumn column = Except.error RepoError.invalidArgument := by
  unfold validateColumn
  split_ifs with h1 h2 h3
  · rfl
  · rfl
  · rfl
  · exact absurd (by simp [hm]) h3

/-- Claim C7: aggregate column gating — `validateColumn` succeeds exactly on
strings matching the anchored regex (so the empty string and any
dot-qualified `table.column` name fail), and for any non-matching column
name `Sum`, `Avg`, `Max` and `Min` return `ErrInvalidArgument` uniformly in
the database state and scope, i.e. before any query reaches the database. -/
theorem aggregateColumnGating (column : String) :
    (validateColumn column = Except.ok () ↔ columnRegexMatch column = true) ∧
    (column = "" → columnRegexMatch column = false) ∧
    (column.data.any (fun ch => ch == '.') = true →
      columnRegexMatch column = false) ∧
    (columnRegexMatch column = false →
      ∀ (meta : EntityMeta) (octx : Option TenantContext) (db : List Row)
        (q : Row → Bool),
        sumOp meta octx db column q = Except.error RepoError.invalidArgument ∧
        avgOp meta octx db column q = Except.error RepoError.invalidArgument ∧
        maxOp meta octx db column q = Except.error RepoError.invalidArgument ∧
        minOp meta octx db column q = Except.error RepoError.invalidArgument) := by
  refine ⟨⟨?_, ?_⟩, ?_, ?_, ?_⟩
  · intro h
    by_contra hm
    rw [Bool.not_eq_true] at hm
    rw [validateColumn_err hm] at h
    cases h
  · intro h
    have hne : column ≠ "" := by
      intro he
      rw [he] at h
      exact absurd h (by decide)
    have hdot := columnRegexMatch_no_dot h
    simp [validateColumn, hne, hdot, h]
  · intro he
    rw [he]
    decide
  · intro hdot
    cases hm : columnRegexMatch column
    · rfl
    · rw [columnRegexMatch_no_dot hm] at hdot
      cases hdot
  · intro hm meta octx db q
    refine ⟨?_, ?_, ?_, ?_⟩ <;>
      simp [sumOp, avgOp, maxOp, minOp, validateColumn_err hm]

/-- Witness for C7: the dot-qualified column name rejected at a concrete
input, with `Sum` failing before consulting the (empty) table. -/
theorem aggregateColumnGatingWitness :
    columnRegexMatch "users.id" = false ∧
    sumOp ⟨true, false, false⟩ none [] "users.id" (fun _ => true) =
      Except.error RepoError.invalidArgument :=
  ⟨by decide,
   ((aggregateColumnGating "users.id").2.2.2 (by decide) ⟨true, false, false⟩
      none [] (fun _ => true)).1⟩

/-- Claim C8: pagination clamping — on any successful `findPage`, the page
recorded in the result (and used for the offset) is `max page 1`, and the
recorded page size lies in `[1, 1000]`: requests above 1000 clamp to 1000,
requests below 1 clamp to the in-range default 10, and in-range requests
pass through unchanged. -/
theorem pageClamping (meta : EntityMeta) (octx : Option TenantContext)
    (db : List Row) (page pageSize : Int) (q : Row → Bool) (res : PageResultM)
    (h : findPage meta octx db page pageSize q = Except.ok res) :
    res.page = max page 1 ∧ 1 ≤ res.pageSize ∧ res.pageSize ≤ 1000 ∧
    (1000 < pageSize → res.pageSize = 1000) ∧
    (pageSize < 1 → res.pageSize = 10) ∧
    (1 ≤ pageSize → pageSize ≤ 1000 → res.pageSize = pageSize) := by
  unfold findPage at h
  split at h
  · cases h
  · rename_i sc hsc
    rw [← ((Except.ok.injEq _ _).mp h)]
    refine ⟨?_, ?_, ?_, ?_, ?_, ?_⟩ <;> simp only [] <;> split_ifs <;> omega

/-- Witness for C8: page 0 with page size 5000 clamps to page 1 and page
size 1000. -/
theorem pageClampingWitness :
    (1000 : Int) < 5000 ∧
    (⟨[], 0, 1, 1000, 0⟩ : PageResultM).pageSize = 1000 ∧
    (⟨[], 0, 1, 1000, 0⟩ : PageResultM).page = max 0 1 :=
  ⟨by norm_num,
   (pageClamping ⟨true, false, false⟩ none [] 0 5000 (fun _ => true)
      ⟨[], 0, 1, 1000, 0⟩ rfl).2.2.2.1 (by norm_num),
   (pageClamping ⟨true, false, false⟩ none [] 0 5000 (fun _ => true)
      ⟨[], 0, 1, 1000, 0⟩ rfl).1⟩

/-- Claim C9: admin dept-insensitivity — for an admin identity over a
tenant, the tenant scope computed by both source variants, and with it
every aggregate (`Count`, `Sum`, `Avg`, `Max`, `Min`), is identical whether
the identity carries a `dept_id` or not: admin callers are never
dept-filtered. -/
theorem adminDeptInsensitive (meta : EntityMeta) (t d : Nat) (pv : Int)
    (roles : List String) (uid : Nat) (db : List Row) (col : String)
    (q : Row → Bool) :
    applyTenantScope meta (some ⟨t, some d, true, pv, roles, uid⟩) =
      applyTenantScope meta (some ⟨t, none, true, pv, roles, uid⟩) ∧
    applyTenantScopeChecked meta (some ⟨t, some d, true, pv, roles, uid⟩) =
      applyTenantScopeChecked meta (some ⟨t, none, true, pv, roles, uid⟩) ∧
    countOp meta (some ⟨t, some d, true, pv, roles, uid⟩) db q =
      countOp meta (some ⟨t, none, true, pv, roles, uid⟩) db q ∧
    sumOp meta (some ⟨t, some d, true, pv, roles, uid⟩) db col q =
      sumOp meta (some ⟨t, none, true, pv, roles, uid⟩) db col q ∧
    avgOp meta (some ⟨t, some d, true, pv, roles, uid⟩) db col q =
      avgOp meta (some ⟨t, none, true, pv, roles, uid⟩) db col q ∧
    maxOp meta (some ⟨t, some d, true, pv, roles, uid⟩) db col q =
      maxOp meta (some ⟨t, none, true, pv, roles, uid⟩) db col q ∧
    minOp meta (some ⟨t, some d, true, pv, roles, uid⟩) db col q =
      minOp meta (some ⟨t, none, true, pv, roles, uid⟩) db col q := by
  have hsc : applyTenantScope meta (some ⟨t, some d, true, pv, roles, uid⟩) =
      applyTenantScope meta (some ⟨t, none, true, pv, roles, uid⟩) := rfl
  have hsc2 : applyTenantScopeChecked meta
        (some ⟨t, some d, true, pv, roles, uid⟩) =
      applyTenantScopeChecked meta (some ⟨t, none, true, pv, roles, uid⟩) :=
    rfl
  refine ⟨hsc, hsc2, ?_, ?_, ?_, ?_, ?_⟩
  · unfold countOp; rw [hsc]
  · unfold sumOp; rw [hsc]
  · unfold avgOp; rw [hsc]
  · unfold maxOp; rw [hsc]
  · unfold minOp; rw [hsc]

/-- Claim C1: cross-tenant read isolation — for a non-tenant-ignored entity
and identities `a`, `b` of different tenants, a row created under `a` is
never returned by any read under `b`: every row returned by `findByID`,
`findByIDs`, `findOne`, `findByQuery` or `findPage` under `b` carries `b`'s
tenant (and so differs from the created row), and `countOp`, `existsOp` and
the aggregates under `b` are unchanged by the creation. -/
theorem crossTenantReadIsolation (meta : EntityMeta) (a b : TenantContext)
    (db : List Row) (m : Option Row) (db' : List Row) (r' : Row)
    (hig : meta.tenantIgnored = false)
    (hab : a.tenantID ≠ b.tenantID)
    (hc : create meta (some a) db m = Except.ok (db', r')) :
    (∀ i row, findByID meta (some b) db' i = Except.ok row →
        row.tenant = b.tenantID ∧ row ≠ r') ∧
    (∀ ids rows, findByIDs meta (some b) db' ids = Except.ok rows →
        ∀ row ∈ rows, row.tenant = b.tenantID ∧ row ≠ r') ∧
    (∀ q row, findOne meta (some b) db' q = Except.ok row →
        row.tenant = b.tenantID ∧ row ≠ r') ∧
    (∀ q rows, findByQuery meta (some b) db' q = Except.ok rows →
        ∀ row ∈ rows, row.tenant = b.tenantID ∧ row ≠ r') ∧
    (∀ pg ps q res, findPage meta (some b) db' pg ps q = Except.ok res →
        ∀ row ∈ res.list, row.tenant = b.tenantID ∧ row ≠ r') ∧
    (∀ q, countOp meta (some b) db' q = countOp meta (some b) db q) ∧
    (∀ q, existsOp meta (some b) db' q = existsOp meta (some b) db q) ∧
    (∀ col q, sumOp meta (some b) db' col q = sumOp meta (some b) db col q) ∧
    (∀ col q, avgOp meta (some b) db' col q = avgOp meta (some b) db col q) ∧
    (∀ col q, maxOp meta (some b) db' col q = maxOp meta (some b) db col q) ∧
    (∀ col q, minOp meta (some b) db' col q = minOp meta (some b) db col q) := by
  obtain ⟨m0, rfl⟩ : ∃ m0, m = some m0 := by
    cases m with
    | none => simp [create] at hc
    | some m0 => exact ⟨m0, rfl⟩
  obtain ⟨hrt, hdb⟩ := create_ok hig hc
  subst hdb
  have hne : r'.tenant ≠ b.tenantID := by rw [hrt]; exact hab
  have hinv : ∀ sc, applyTenantScope meta (some b) = Except.ok sc →
      rowVisible sc r' = false := by
    intro sc hsc
    obtain ⟨d, rfl⟩ := applyTenantScope_some_shape hig hsc
    exact rowVisible_filtered_of_ne hne
  have hmemfact : ∀ sc, applyTenantScope meta (some b) = Except.ok sc →
      ∀ r0 ∈ visibleRows sc (db ++ [r']),
        r0.tenant = b.tenantID ∧ r0 ≠ r' :=
    fun sc hsc r0 hmem => returned_row_tenant hig hsc hne hmem
  refine ⟨?_, ?_, ?_, ?_, ?_, ?_, ?_, ?_, ?_, ?_, ?_⟩
  · intro i row h
    unfold findByID at h
    split at h
    · cases h
    · rename_i sc hsc
      split at h
      · cases h
      · rename_i r0 rest hfl
        rw [← ((Except.ok.injEq _ _).mp h)]
        apply hmemfact sc hsc
        apply List.mem_of_mem_filter
        rw [hfl]
        exact List.mem_cons_self _ _
  · intro ids rows h
    unfold findByIDs at h
    by_cases hids : ids.isEmpty
    · rw [if_pos hids] at h
      rw [← ((Except.ok.injEq _ _).mp h)]
      intro row hrow
      exact absurd hrow (List.not_mem_nil _)
    · rw [if_neg hids] at h
      split at h
      · cases h
      · rename_i sc hsc
        rw [← ((Except.ok.injEq _ _).mp h)]
        intro row hrow
        exact hmemfact sc hsc row (List.mem_of_mem_filter hrow)
  · intro q row h
    unfold findOne at h
    split at h
    · cases h
    · rename_i sc hsc
      split at h
      · cases h
      · rename_i r0 rest hfl
        rw [← ((Except.ok.injEq _ _).mp h)]
        apply hmemfact sc hsc
        apply List.mem_of_mem_filter
        rw [hfl]
        exact List.mem_cons_self _ _
  · intro q rows h
    unfold findByQuery at h
    split at h
    · cases h
    · rename_i sc hsc
      rw [← ((Except.ok.injEq _ _).mp h)]
      intro row hrow
      exact hmemfact sc hsc row (List.mem_of_mem_filter hrow)
  · intro pg ps q res h
    unfold findPage at h
    split at h
    · cases h
    · rename_i sc hsc
      rw [← ((Except.ok.injEq _ _).mp h)]
      intro row hrow
      have h1 := List.mem_of_mem_take hrow
      have h2 := List.mem_of_mem_drop h1
      exact hmemfact sc hsc row (List.mem_of_mem_filter h2)
  · intro q
    unfold countOp
    cases hsc : applyTenantScope meta (some b) with
    | error e => rfl
    | ok sc => simp only [visibleRows_append_invisible db (hinv sc hsc)]
  · intro q
    unfold existsOp countOp
    cases hsc : applyTenantScope meta (some b) with
    | error e => rfl
    | ok sc => simp only [visibleRows_append_invisible db (hinv sc hsc)]
  · intro col q
    unfold sumOp
    cases hv : validateColumn col with
    | error e => rfl
    | ok u =>
        cases hsc : applyTenantScope meta (some b) with
        | error e => rfl
        | ok sc => simp only [visibleRows_append_invisible db (hinv sc hsc)]
  · intro col q
    unfold avgOp
    cases hv : validateColumn col with
    | error e => rfl
    | ok u =>
        cases hsc : applyTenantScope meta (some b) with
        | error e => rfl
        | ok sc => simp only [visibleRows_append_invisible db (hinv sc hsc)]
  · intro col q
    unfold maxOp
    cases hv : validateColumn col with
    | error e => rfl
    | ok u =>
        cases hsc : applyTenantScope meta (some b) with
        | error e => rfl
        | ok sc => simp only [visibleRows_append_invisible db (hinv sc hsc)]
  · intro col q
    unfold minOp
    cases hv : validateColumn col with
    | error e => rfl
    | ok u =>
        cases hsc : applyTenantScope meta (some b) with
        | error e => rfl
        | ok sc => simp only [visibleRows_append_invisible db (hinv sc hsc)]

/-- Witness for C1: tenants 1 and 2; a row created under tenant 1 — even
though the in-memory entity claimed tenant 2 — leaves what a tenant-2
identity counts unchanged. -/
theorem crossTenantReadIsolationWitness :
    (1 : Nat) ≠ 2 ∧
    countOp ⟨false, true, true⟩ (some ⟨2, none, true, 0, [], 0⟩)
        [⟨10, 1, none, "a", []⟩] (fun _ => true) =
      countOp ⟨false, true, true⟩ (some ⟨2, none, true, 0, [], 0⟩) []
        (fun _ => true) :=
  ⟨by decide,
   (crossTenantReadIsolation ⟨false, true, true⟩ ⟨1, none, true, 0, [], 0⟩
      ⟨2, none, true, 0, [], 0⟩ [] (some ⟨10, 2, none, "a", []⟩)
      [⟨10, 1, none, "a", []⟩] ⟨10, 1, none, "a", []⟩ rfl (by decide)
      rfl).2.2.2.2.2.1 (fun _ => true)⟩

end AisRepo

